import Mathlib

/-!
Verification of the data-ingestion pipeline in `src/data_ingestion.py`.

The program is a linear pipeline: load parameters (YAML), load a CSV into a
dataframe, drop three placeholder columns and rename `v1`/`v2` to
`target`/`text`, split the rows into train/test partitions with
`sklearn.model_selection.train_test_split(df, test_size=0.21, random_state=42)`,
and write `data/raw/train.csv` then `data/raw/test.csv`.  Every stage wraps its
body in try/except that logs at error level and re-raises.

The embedding below models a pandas dataframe as an ordered column list plus
rows carrying their index label, the filesystem and logger as an explicit
`World` of write events and log entries, and the fallible external operations
(opening the params file, fetching/parsing the CSV, writing a file) as
`Except`-valued inputs in an `Env`.
-/

namespace DataIngestion

/-- A cell value of the tabular dataset (CSV cells are strings here). -/
abbrev Cell := String

/-- A dataframe row: the pandas index label paired with the cell values,
positionally aligned with the frame's column list. -/
abbrev Row := Nat × List Cell

/-- Model of a pandas DataFrame: an ordered list of column names and an
ordered list of rows. -/
structure Frame where
  cols : List String
  rows : List Row
deriving Repr, DecidableEq

/-- Well-formedness: every row has one cell per column. -/
def Frame.wf (f : Frame) : Prop :=
  ∀ r ∈ f.rows, r.2.length = f.cols.length

/-- Log levels used by the script (`logger.debug` / `logger.error`). -/
inductive LogLevel where
  | debug
  | error
deriving Repr, DecidableEq

/-- One log record emitted through the console/file handlers. -/
structure LogEntry where
  level : LogLevel
  msg : String
deriving Repr, DecidableEq

/-- Observable state threaded through the run: the log stream and the trace
of completed file writes (path and written frame), in order. -/
structure World where
  logs : List LogEntry
  files : List (String × Frame)
deriving Repr, DecidableEq

def logDebug (w : World) (m : String) : World :=
  { w with logs := w.logs ++ [⟨LogLevel.debug, m⟩] }

def logError (w : World) (m : String) : World :=
  { w with logs := w.logs ++ [⟨LogLevel.error, m⟩] }

/-- The YAML parameters mapping (loaded but never consumed by the script). -/
abbrev Params := List (String × String)

/-- Results of the external world's fallible operations for one run: the
outcome of opening/parsing `params.yaml`, the outcome of
`pd.read_csv(data_url)` (network fetch plus CSV parse), and which file paths
accept a write. -/
structure Env where
  params : Except String Params
  fetch : Except String Frame
  writeOk : String → Bool

/-- `load_params`: `yaml.safe_load` of the params file; logs debug on
success, logs at error level and re-raises on failure. -/
def load_params (env : Env) (w : World) : Except String Params × World :=
  match env.params with
  | Except.ok p => (Except.ok p, logDebug w "Parameters loaded")
  | Except.error e => (Except.error e, logError w ("Error loading parameters: " ++ e))

/-- `load_data`: `pd.read_csv(data_url)`; logs debug on success, logs at
error level and re-raises on failure. -/
def load_data (env : Env) (w : World) : Except String Frame × World :=
  match env.fetch with
  | Except.ok df => (Except.ok df, logDebug w "Data loaded")
  | Except.error e => (Except.error e, logError w ("Error loading data: " ++ e))

/-- The three placeholder columns dropped by `preprocess_data`. -/
def unnamedCols : List String := ["Unnamed: 2", "Unnamed: 3", "Unnamed: 4"]

/-- The column renaming passed to `df.rename`: `v1 -> target`, `v2 -> text`,
anything else unchanged (pandas `rename` ignores absent keys). -/
def renameMap (c : String) : String :=
  if c = "v1" then "target" else if c = "v2" then "text" else c

/-- Cells of one row surviving `df.drop(columns=unnamedCols)`: keep the cell
positions whose column name is not a dropped label. -/
def keepCells : List String → List Cell → List Cell
  | _, [] => []
  | [], _ :: _ => []
  | c :: cs, x :: xs =>
    if unnamedCols.contains c then keepCells cs xs else x :: keepCells cs xs

/-- `df.drop(columns=[...])`: raises `KeyError` when any listed label is not
a column; otherwise removes those columns from the header and from every row. -/
def dropUnnamed (f : Frame) : Except String Frame :=
  if unnamedCols.all (fun c => f.cols.contains c) then
    Except.ok
      { cols := f.cols.filter (fun c => !(unnamedCols.contains c)),
        rows := f.rows.map (fun r => (r.1, keepCells f.cols r.2)) }
  else
    Except.error "KeyError: labels not found in axis"

/-- `df.rename(columns={...})`: renames header labels, touching nothing else. -/
def renameFrame (f : Frame) : Frame :=
  { f with cols := f.cols.map renameMap }

/-- Body of `preprocess_data` without the try/except wrapper:
`drop` then `rename`. -/
def preprocessCore (f : Frame) : Except String Frame :=
  match dropUnnamed f with
  | Except.ok g => Except.ok (renameFrame g)
  | Except.error e => Except.error e

/-- `preprocess_data`: the core transformation wrapped in try/except that
logs debug on success, logs at error level and re-raises on failure. -/
def preprocess_data (f : Frame) (w : World) : Except String Frame × World :=
  match preprocessCore f with
  | Except.ok g => (Except.ok g, logDebug w "Data preprocessing completed")
  | Except.error e => (Except.error e, logError w ("Error during preprocessing: " ++ e))

def trainPath : String := "data/raw/train.csv"

def testPath : String := "data/raw/test.csv"

/-- `df.to_csv(path)`: appends a write event on success, fails when the
filesystem rejects the write. -/
def writeCsv (writeOk : String → Bool) (path : String) (f : Frame) (w : World) :
    Except String Unit × World :=
  if writeOk path then (Except.ok (), { w with files := w.files ++ [(path, f)] })
  else (Except.error ("write failed: " ++ path), w)

/-- `save_data`: writes `train.csv` then `test.csv`; on any failure logs at
error level and re-raises; logs debug when both writes succeed. -/
def save_data (writeOk : String → Bool) (train_df test_df : Frame) (w : World) :
    Except String Unit × World :=
  match writeCsv writeOk trainPath train_df w with
  | (Except.error e, w1) => (Except.error e, logError w1 ("Error saving data: " ++ e))
  | (Except.ok _, w1) =>
    match writeCsv writeOk testPath test_df w1 with
    | (Except.error e, w2) => (Except.error e, logError w2 ("Error saving data: " ++ e))
    | (Except.ok _, w2) => (Except.ok (), logDebug w2 "Train and test data saved to data/raw")

/-!
Model of `sklearn.model_selection.train_test_split(df, test_size=0.21,
random_state=42)`.  sklearn computes `n_test = ceil(0.21 * n)` and
`n_train = n - n_test`, raises `ValueError` when the train set would be
empty, draws a seeded pseudo-random permutation of the row positions, takes
the first `n_test` positions as the test set and the rest as the train set,
and selects those rows (with their index labels) in permutation order.  The
arithmetic is modelled exactly over rationals (21/100); the seeded
pseudo-random permutation is modelled by a deterministic Fisher-Yates draw
over a linear congruential generator, faithful to what the claims use of it:
it is a permutation of `range n` determined by the seed and `n` alone.
-/

/-- `ceil(0.21 * n)`: the test partition size sklearn computes. -/
def nTest (n : Nat) : Nat := (21 * n + 99) / 100

/-- `n - n_test`: the train partition size sklearn computes. -/
def nTrain (n : Nat) : Nat := n - nTest n

/-- One step of the 64-bit linear congruential generator modelling the
seeded pseudo-random number stream. -/
def lcg (s : Nat) : Nat := (6364136223846793005 * s + 1442695040888963407) % (2 ^ 64)

/-- Fisher-Yates draw: repeatedly pick a pseudo-random position of the
remaining list and move it to the front of the output; the fuel is the
number of draws (the list length at the first call). -/
def shuffleAux : Nat → Nat → List Nat → List Nat
  | 0, _, _ => []
  | _ + 1, _, [] => []
  | fuel + 1, s, x :: xs =>
    (x :: xs).getD (lcg s % (x :: xs).length) 0 ::
      shuffleAux fuel (lcg s) ((x :: xs).eraseIdx (lcg s % (x :: xs).length))

/-- The pseudo-random permutation of row positions `0, ..., n-1` drawn from
the seed: the model of `check_random_state(seed).permutation(n)`. -/
def permOfSeed (seed n : Nat) : List Nat := shuffleAux n seed (List.range n)

/-- Row selection `df.iloc[idxs]`: the rows of `f` at positions `idxs`, in
that order, keeping their index labels. -/
def takeRows (f : Frame) (idxs : List Nat) : Frame :=
  { cols := f.cols, rows := idxs.filterMap (fun i => f.rows.get? i) }

/-- `train_test_split` given the drawn permutation of row positions:
validates that the train partition is nonempty, then splits the permuted
positions at `n_test` (test positions first, as sklearn does). -/
def splitByPerm (f : Frame) (perm : List Nat) : Except String (Frame × Frame) :=
  let n := f.rows.length
  if nTrain n = 0 then
    Except.error "ValueError: the resulting train set will be empty"
  else
    Except.ok (takeRows f (perm.drop (nTest n)), takeRows f (perm.take (nTest n)))

/-- `train_test_split(df, test_size=0.21, random_state=seed)`: a pure
function of the dataframe and the seed. -/
def splitWithSeed (f : Frame) (seed : Nat) : Except String (Frame × Frame) :=
  splitByPerm f (permOfSeed seed f.rows.length)

/-- `main()`: load the CSV, preprocess, split with `test_size=0.21`,
`random_state=42`, save both partitions; the outer try/except logs
`Data ingestion failed` at error level and re-raises the first failure.
The hardcoded parameters are inline; `load_params` is never called. -/
def main (env : Env) (w : World) : Except String Unit × World :=
  match load_data env w with
  | (Except.error e, w1) => (Except.error e, logError w1 ("Data ingestion failed: " ++ e))
  | (Except.ok df, w1) =>
    match preprocess_data df w1 with
    | (Except.error e, w2) => (Except.error e, logError w2 ("Data ingestion failed: " ++ e))
    | (Except.ok df2, w2) =>
      match splitWithSeed df2 42 with
      | Except.error e => (Except.error e, logError w2 ("Data ingestion failed: " ++ e))
      | Except.ok (train_df, test_df) =>
        match save_data env.writeOk train_df test_df w2 with
        | (Except.error e, w3) => (Except.error e, logError w3 ("Data ingestion failed: " ++ e))
        | (Except.ok _, w3) =>
          (Except.ok (), logDebug w3 "Data ingestion pipeline completed successfully")

/-! ### Concrete frames, environments and worlds used as test inputs -/

/-- An empty observable world: no logs, no files written yet. -/
def emptyWorld : World := ⟨[], []⟩

/-- A dataset with exactly the five expected columns and two rows. -/
def sampleFrame : Frame :=
  ⟨["v1", "v2", "Unnamed: 2", "Unnamed: 3", "Unnamed: 4"],
   [(0, ["ham", "hello", "", "", ""]), (1, ["spam", "win big", "", "", ""])]⟩

/-- A dataset with the five expected columns plus one extra column. -/
def frameExtra : Frame :=
  ⟨["v1", "v2", "Unnamed: 2", "Unnamed: 3", "Unnamed: 4", "extra"],
   [(0, ["ham", "hello", "", "", "", "e0"]), (1, ["spam", "win big", "", "", "", "e1"])]⟩

/-- The preprocessor output on `frameExtra`. -/
def frameExtraOut : Frame :=
  ⟨["target", "text", "extra"], [(0, ["ham", "hello", "e0"]), (1, ["spam", "win big", "e1"])]⟩

/-- A dataset with the three placeholder columns present but no `v1`/`v2`. -/
def frameNoV1 : Frame :=
  ⟨["Unnamed: 2", "Unnamed: 3", "Unnamed: 4", "a", "b"], [(0, ["", "", "", "x", "y"])]⟩

/-- A dataset missing the placeholder columns (so `drop` raises `KeyError`). -/
def frameNoU : Frame := ⟨["v1", "v2"], [(0, ["ham", "hi"])]⟩

/-- A one-row preprocessed dataset (sklearn refuses to split it). -/
def frameOne : Frame := ⟨["target", "text"], [(0, ["ham", "hi"])]⟩

/-- A three-row preprocessed dataset. -/
def frame3 : Frame :=
  ⟨["target", "text"], [(0, ["a", "b"]), (1, ["c", "d"]), (2, ["e", "f"])]⟩

/-- An environment whose `params.yaml` is missing while everything else
succeeds. -/
def envNoParams : Env :=
  ⟨Except.error "[Errno 2] No such file or directory: params.yaml",
   Except.ok sampleFrame, fun _ => true⟩

/-- An environment in which every external operation fails. -/
def envAllFail : Env :=
  ⟨Except.error "E1", Except.error "E2", fun _ => false⟩

/-! ### Helper lemmas -/

theorem keepCells_sublist (cols : List String) :
    ∀ cells : List Cell, (keepCells cols cells).Sublist cells := by
  induction cols with
  | nil => intro cells; cases cells <;> simp [keepCells]
  | cons c cs ih =>
    intro cells
    cases cells with
    | nil => simp [keepCells]
    | cons x xs =>
      rw [keepCells]
      split
      · exact (ih xs).cons x
      · exact (ih xs).cons₂ x

theorem contains_eq_false_of_not_mem {l : List String} {c : String} (h : c ∉ l) :
    l.contains c = false := by
  cases hc : l.contains c
  · rfl
  · exact absurd (List.elem_iff.mp hc) h

/-- Selecting every position of a list in order returns the list itself. -/
theorem filterMap_get_range {α : Type} (l : List α) :
    (List.range l.length).filterMap (fun i => l.get? i) = l := by
  induction l with
  | nil => simp
  | cons a t ih =>
    rw [List.length_cons, List.range_succ_eq_map,
      List.filterMap_cons_some (show (fun i => (a :: t).get? i) 0 = some a from rfl),
      List.filterMap_map]
    exact congrArg (a :: ·) ih

/-- Selecting only valid positions loses nothing. -/
theorem length_filterMap_get {α : Type} (l : List α) :
    ∀ idxs : List Nat, (∀ i ∈ idxs, i < l.length) →
      (idxs.filterMap (fun i => l.get? i)).length = idxs.length := by
  intro idxs
  induction idxs with
  | nil => simp
  | cons i t ih =>
    intro h
    have hi : i < l.length := h i (List.mem_cons_self i t)
    rw [List.filterMap_cons_some (List.get?_eq_get hi), List.length_cons,
      ih (fun j hj => h j (List.mem_cons_of_mem i hj))]
    simp

/-- Moving any element of a list to the front is a permutation. -/
theorem getD_cons_eraseIdx_perm {α : Type} (d : α) :
    ∀ (l : List α) (i : Nat), i < l.length → (l.getD i d :: l.eraseIdx i).Perm l := by
  intro l
  induction l with
  | nil => intro i h; simp at h
  | cons a t ih =>
    intro i h
    cases i with
    | zero => simp
    | succ j =>
      have hj : j < t.length := by simpa using h
      rw [List.eraseIdx_cons_succ, List.getD_cons_succ]
      exact (List.Perm.swap a (t.getD j d) (t.eraseIdx j)).trans ((ih j hj).cons a)

/-- The Fisher-Yates draw with enough fuel permutes its input list. -/
theorem shuffleAux_perm :
    ∀ (n s : Nat) (l : List Nat), l.length ≤ n → (shuffleAux n s l).Perm l := by
  intro n
  induction n with
  | zero =>
    intro s l h
    cases l with
    | nil => simp [shuffleAux]
    | cons x xs => simp at h
  | succ n ih =>
    intro s l h
    cases l with
    | nil => simp [shuffleAux]
    | cons x xs =>
      rw [shuffleAux]
      have hi : lcg s % (x :: xs).length < (x :: xs).length := Nat.mod_lt _ (by simp)
      have hlen : ((x :: xs).eraseIdx (lcg s % (x :: xs).length)).length ≤ n := by
        rw [List.length_eraseIdx, if_pos hi]
        simp only [List.length_cons] at h ⊢
        omega
      exact ((ih _ _ hlen).cons _).trans (getD_cons_eraseIdx_perm 0 _ _ hi)

/-- The seeded row-position draw is a permutation of `0, ..., n-1`. -/
theorem permOfSeed_perm (seed n : Nat) : (permOfSeed seed n).Perm (List.range n) :=
  shuffleAux_perm n seed (List.range n) (by simp)

theorem nTest_le (n : Nat) : nTest n ≤ n := by
  unfold nTest; omega

theorem nTrain_ne_zero {n : Nat} (h : 2 ≤ n) : nTrain n ≠ 0 := by
  unfold nTrain nTest; omega

/-- `round(0.21 * n)` (rounding half up), the test size the spec states. -/
def roundTest (n : Nat) : Nat := (21 * n + 50) / 100

/-- `round(0.79 * n)` (rounding half up), the train size the spec states. -/
def roundTrain (n : Nat) : Nat := (79 * n + 50) / 100

theorem nTest_near_round (n : Nat) : Nat.dist (nTest n) (roundTest n) ≤ 1 := by
  simp only [Nat.dist, nTest, roundTest]; omega

theorem nTrain_near_round (n : Nat) : Nat.dist (nTrain n) (roundTrain n) ≤ 1 := by
  simp only [Nat.dist, nTrain, nTest, roundTrain]; omega

/-- Row selection at valid positions keeps one row per position. -/
theorem takeRows_length {f : Frame} {idxs : List Nat}
    (h : ∀ i ∈ idxs, i < f.rows.length) :
    (takeRows f idxs).rows.length = idxs.length :=
  length_filterMap_get f.rows idxs h

/-- When the drawn positions form a permutation of the row positions, the
selected train and test rows together are a permutation of the input rows. -/
theorem splitByPerm_union_perm {f : Frame} {perm : List Nat}
    (hp : perm.Perm (List.range f.rows.length)) {tr te : Frame}
    (h : splitByPerm f perm = Except.ok (tr, te)) :
    (tr.rows ++ te.rows).Perm f.rows := by
  by_cases h0 : nTrain f.rows.length = 0
  · simp [splitByPerm, h0] at h
  · rw [splitByPerm, if_neg h0] at h
    have hpair := (Except.ok.injEq _ _).mp h
    have htr : tr = takeRows f (perm.drop (nTest f.rows.length)) :=
      (congrArg Prod.fst hpair).symm
    have hte : te = takeRows f (perm.take (nTest f.rows.length)) :=
      (congrArg Prod.snd hpair).symm
    have h1 : (perm.drop (nTest f.rows.length) ++ perm.take (nTest f.rows.length)).Perm
        (List.range f.rows.length) := by
      refine List.Perm.trans List.perm_append_comm ?_
      rw [List.take_append_drop]
      exact hp
    have h2 := h1.filterMap (fun i => f.rows.get? i)
    rw [List.filterMap_append, filterMap_get_range] at h2
    rw [htr, hte]
    exact h2

/-- 2-row-or-more datasets split successfully, with each partition's size
matching sklearn's arithmetic. -/
theorem splitWithSeed_ok {f : Frame} (seed : Nat) (h2 : 2 ≤ f.rows.length) :
    ∃ tr te, splitWithSeed f seed = Except.ok (tr, te) ∧
      tr.rows.length = nTrain f.rows.length ∧
      te.rows.length = nTest f.rows.length := by
  have h0 := nTrain_ne_zero h2
  have hp := permOfSeed_perm seed f.rows.length
  have hlen : (permOfSeed seed f.rows.length).length = f.rows.length :=
    hp.length_eq.trans (List.length_range _)
  have hmem : ∀ i ∈ permOfSeed seed f.rows.length, i < f.rows.length := by
    intro i hi
    exact List.mem_range.mp ((hp.mem_iff).mp hi)
  refine ⟨takeRows f ((permOfSeed seed f.rows.length).drop (nTest f.rows.length)),
          takeRows f ((permOfSeed seed f.rows.length).take (nTest f.rows.length)),
          ?_, ?_, ?_⟩
  · rw [splitWithSeed, splitByPerm, if_neg h0]
  · rw [takeRows_length (fun i hi => hmem i (List.mem_of_mem_drop hi)),
      List.length_drop, hlen]
    rfl
  · rw [takeRows_length (fun i hi => hmem i (List.mem_of_mem_take hi)),
      List.length_take, hlen]
    exact Nat.min_eq_left (nTest_le _)

/-- The preprocessor on a dataset containing the three placeholder columns:
drop them, rename the header, keep the rows. -/
theorem preprocess_ok {f : Frame} (hU : ∀ c ∈ unnamedCols, c ∈ f.cols) (w : World) :
    (preprocess_data f w).1 = Except.ok
      { cols := (f.cols.filter (fun c => !(unnamedCols.contains c))).map renameMap,
        rows := f.rows.map (fun r => (r.1, keepCells f.cols r.2)) } := by
  have hall : unnamedCols.all (fun c => f.cols.contains c) = true := by
    rw [List.all_eq_true]
    intro c hc
    exact List.elem_iff.mpr (hU c hc)
  simp only [preprocess_data, preprocessCore, dropUnnamed]
  rw [if_pos hall]
  rfl

/-- The preprocessor on a dataset missing a placeholder column: `KeyError`. -/
theorem preprocess_keyError {f : Frame} (c : String) (hcu : c ∈ unnamedCols)
    (hcn : c ∉ f.cols) (w : World) :
    preprocess_data f w =
      (Except.error "KeyError: labels not found in axis",
       logError w "Error during preprocessing: KeyError: labels not found in axis") := by
  have hall : unnamedCols.all (fun c => f.cols.contains c) = false := by
    cases hv : unnamedCols.all (fun c => f.cols.contains c)
    · rfl
    · exact absurd (List.elem_iff.mp (List.all_eq_true.mp hv c hcu)) hcn
  simp only [preprocess_data, preprocessCore, dropUnnamed]
  rw [if_neg (by rw [hall]; exact Bool.false_ne_true)]
  rfl

/-- A filesystem accepting only the train-file write. -/
def writeTrainOnly : String → Bool := fun p => p == trainPath

/-- The train partition the seeded split produces on `frame3`. -/
def train3 : Frame := ⟨["target", "text"], [(0, ["a", "b"]), (1, ["c", "d"])]⟩

/-- The test partition the seeded split produces on `frame3`. -/
def test3 : Frame := ⟨["target", "text"], [(2, ["e", "f"])]⟩

/-! ### Claims -/

/-- C1, counterexample: a dataset with six columns — the five expected ones
plus `extra` — satisfies the claim's premise (at least five columns including
`v1`, `v2` and the three placeholder columns), yet the preprocessor returns a
three-column dataset, not one with exactly `target` and `text`. -/
theorem c1_counterexample :
    (preprocess_data frameExtra emptyWorld).1 = Except.ok frameExtraOut ∧
    frameExtraOut.cols ≠ ["target", "text"] :=
  ⟨rfl, by decide⟩

/-- C1 (amended): for every input dataset containing the three placeholder
columns and whose non-placeholder columns are exactly `v1` followed by `v2`,
the preprocessor output has exactly the two columns `target` and `text`, in
that order, with the same row count and row order as the input. -/
theorem c1_preprocess_two_columns (f : Frame) (w : World)
    (hU : ∀ c ∈ unnamedCols, c ∈ f.cols)
    (hfil : f.cols.filter (fun c => !(unnamedCols.contains c)) = ["v1", "v2"]) :
    ∃ g, (preprocess_data f w).1 = Except.ok g ∧ g.cols = ["target", "text"] ∧
      g.rows.length = f.rows.length ∧ g.rows.map Prod.fst = f.rows.map Prod.fst := by
  refine ⟨_, preprocess_ok hU w, ?_, by simp, by simp⟩
  show (f.cols.filter (fun c => !(unnamedCols.contains c))).map renameMap = ["target", "text"]
  rw [hfil]
  decide

/-- C1 witness: the amended statement at the concrete five-column dataset. -/
theorem c1_witness :
    ∃ g, (preprocess_data sampleFrame emptyWorld).1 = Except.ok g ∧
      g.cols = ["target", "text"] ∧
      g.rows.length = sampleFrame.rows.length ∧
      g.rows.map Prod.fst = sampleFrame.rows.map Prod.fst :=
  c1_preprocess_two_columns sampleFrame emptyWorld (by decide) (by decide)

/-- C2, counterexample: with `params.yaml` missing but the CSV fetch fine,
the run completes successfully and writes its outputs — `main` never loads
the configuration file, so a missing configuration path does not abort the
run. -/
theorem c2_counterexample :
    envNoParams.params = Except.error "[Errno 2] No such file or directory: params.yaml" ∧
    (main envNoParams emptyWorld).1 = Except.ok () ∧
    (main envNoParams emptyWorld).2.files ≠ [] :=
  ⟨rfl, rfl, by decide⟩

/-- C2 (amended): `main` does not load the configuration file — its
parameters are hardcoded inline, so the run's outcome is independent of the
configuration file's state; `load_params` itself, were it called on a
missing path, logs an error naming the failure and re-raises it. -/
theorem c2_params_unused :
    (∀ env w p, main { env with params := p } w = main env w) ∧
    (∀ env w e, env.params = Except.error e →
      load_params env w = (Except.error e, logError w ("Error loading parameters: " ++ e))) := by
  constructor
  · intro env w p
    rfl
  · intro env w e h
    simp [load_params, h]

/-- C2 witness: both parts of the amended statement at concrete inputs. -/
theorem c2_witness :
    main { envNoParams with params := Except.ok [] } emptyWorld = main envNoParams emptyWorld ∧
    load_params envNoParams emptyWorld =
      (Except.error "[Errno 2] No such file or directory: params.yaml",
       logError emptyWorld
         ("Error loading parameters: " ++ "[Errno 2] No such file or directory: params.yaml")) :=
  ⟨c2_params_unused.1 envNoParams emptyWorld (Except.ok []),
   c2_params_unused.2 envNoParams emptyWorld _ rfl⟩

/-- C3, counterexample: on a one-row dataset the claim expects a train
partition of round(1*0.79) = 1 row, but the splitter raises `ValueError`
(the train set would be empty) and produces no partitions at all. -/
theorem c3_counterexample :
    splitWithSeed frameOne 42 =
      Except.error "ValueError: the resulting train set will be empty" ∧
    roundTrain frameOne.rows.length = 1 :=
  ⟨rfl, rfl⟩

/-- C3 (amended): for every preprocessed dataset with at least two rows, the
split with fraction 0.21 produces a train partition within one row of
round(n*0.79) and a test partition within one row of round(n*0.21); on
datasets with fewer than two rows the splitter raises instead. -/
theorem c3_split_sizes (f : Frame) (seed : Nat) (h2 : 2 ≤ f.rows.length) :
    ∃ tr te, splitWithSeed f seed = Except.ok (tr, te) ∧
      Nat.dist tr.rows.length (roundTrain f.rows.length) ≤ 1 ∧
      Nat.dist te.rows.length (roundTest f.rows.length) ≤ 1 := by
  obtain ⟨tr, te, hok, htr, hte⟩ := splitWithSeed_ok seed h2
  refine ⟨tr, te, hok, ?_, ?_⟩
  · rw [htr]; exact nTrain_near_round _
  · rw [hte]; exact nTest_near_round _

/-- C3 witness: the amended statement at a concrete three-row dataset. -/
theorem c3_witness :
    ∃ tr te, splitWithSeed frame3 42 = Except.ok (tr, te) ∧
      Nat.dist tr.rows.length (roundTrain frame3.rows.length) ≤ 1 ∧
      Nat.dist te.rows.length (roundTest frame3.rows.length) ≤ 1 :=
  c3_split_sizes frame3 42 (by decide)

/-- C4: whenever the split succeeds, the train and test rows together are a
permutation of the input rows (no row duplicated, lost or transformed), and
when the input's row labels are distinct the two partitions' label sets are
disjoint. -/
theorem c4_split_partition (f : Frame) (seed : Nat) (tr te : Frame)
    (h : splitWithSeed f seed = Except.ok (tr, te)) :
    (tr.rows ++ te.rows).Perm f.rows ∧
    ((f.rows.map Prod.fst).Nodup →
      (tr.rows.map Prod.fst).Disjoint (te.rows.map Prod.fst)) := by
  have hu := splitByPerm_union_perm (permOfSeed_perm seed f.rows.length) h
  refine ⟨hu, fun hnd => ?_⟩
  have hmap := hu.map Prod.fst
  rw [List.map_append] at hmap
  exact List.disjoint_of_nodup_append (hmap.symm.nodup hnd)

/-- C4 witness: the partition property at the concrete three-row dataset. -/
theorem c4_witness :
    (train3.rows ++ test3.rows).Perm frame3.rows ∧
    ((frame3.rows.map Prod.fst).Nodup →
      (train3.rows.map Prod.fst).Disjoint (test3.rows.map Prod.fst)) :=
  c4_split_partition frame3 42 train3 test3 rfl

/-- C5: the split is a deterministic function of the dataset and the seed —
two runs on equal datasets with the same seed yield identical train/test
partitions. -/
theorem c5_split_deterministic (f g : Frame) (seed : Nat) (h : f = g) :
    splitWithSeed f seed = splitWithSeed g seed := by
  rw [h]

/-- C5 witness: determinism at the concrete three-row dataset and seed 42. -/
theorem c5_witness : splitWithSeed frame3 42 = splitWithSeed frame3 42 :=
  c5_split_deterministic frame3 frame3 42 rfl

/-- C6, counterexample: a dataset with the three placeholder columns but
without `v1` (or `v2`) makes the preprocessor return a dataset — `rename`
silently ignores absent keys — instead of failing as the claim requires. -/
theorem c6_counterexample :
    (preprocess_data frameNoV1 emptyWorld).1 =
      Except.ok ⟨["a", "b"], [(0, ["x", "y"])]⟩ := rfl

/-- C6 (amended): the preprocessor fails — with the `KeyError` logged at
error level and re-raised — when any of the three placeholder columns is
absent; the absence of `v1`/`v2` alone does not make it fail. -/
theorem c6_preprocess_schema_error (f : Frame) (w : World) (c : String)
    (hcu : c ∈ unnamedCols) (hcn : c ∉ f.cols) :
    preprocess_data f w =
      (Except.error "KeyError: labels not found in axis",
       logError w "Error during preprocessing: KeyError: labels not found in axis") :=
  preprocess_keyError c hcu hcn w

/-- C6 witness: the amended statement at a dataset missing `Unnamed: 2`. -/
theorem c6_witness :
    preprocess_data frameNoU emptyWorld =
      (Except.error "KeyError: labels not found in axis",
       logError emptyWorld "Error during preprocessing: KeyError: labels not found in axis") :=
  c6_preprocess_schema_error frameNoU emptyWorld "Unnamed: 2" (by decide) (by decide)

/-- C7: when fetching or parsing the CSV source fails, the run aborts with
that same error, logs the load failure and the pipeline failure, and writes
no output file at all. -/
theorem c7_no_output_after_load_failure (env : Env) (w : World) (e : String)
    (h : env.fetch = Except.error e) :
    (main env w).1 = Except.error e ∧
    (main env w).2.files = w.files ∧
    (main env w).2.logs = w.logs ++
      [⟨LogLevel.error, "Error loading data: " ++ e⟩,
       ⟨LogLevel.error, "Data ingestion failed: " ++ e⟩] := by
  simp [main, load_data, h, logError]

/-- C7 witness: a failing fetch at concrete inputs writes nothing. -/
theorem c7_witness :
    (main envAllFail emptyWorld).1 = Except.error "E2" ∧
    (main envAllFail emptyWorld).2.files = emptyWorld.files ∧
    (main envAllFail emptyWorld).2.logs = emptyWorld.logs ++
      [⟨LogLevel.error, "Error loading data: " ++ "E2"⟩,
       ⟨LogLevel.error, "Data ingestion failed: " ++ "E2"⟩] :=
  c7_no_output_after_load_failure envAllFail emptyWorld "E2" rfl

/-- C8: every stage — parameter loader, data loader, preprocessor, persister
— re-raises the exception of its failing body unchanged, after appending
exactly one error-level log entry naming it; no stage recovers, retries, or
returns a fallback value. -/
theorem c8_stages_reraise :
    (∀ env w e, env.params = Except.error e →
      load_params env w = (Except.error e, logError w ("Error loading parameters: " ++ e))) ∧
    (∀ env w e, env.fetch = Except.error e →
      load_data env w = (Except.error e, logError w ("Error loading data: " ++ e))) ∧
    (∀ f w e, preprocessCore f = Except.error e →
      preprocess_data f w = (Except.error e, logError w ("Error during preprocessing: " ++ e))) ∧
    (∀ wr tr te w,
      (wr trainPath = false →
        save_data wr tr te w =
          (Except.error ("write failed: " ++ trainPath),
           logError w ("Error saving data: " ++ ("write failed: " ++ trainPath)))) ∧
      (wr trainPath = true → wr testPath = false →
        save_data wr tr te w =
          (Except.error ("write failed: " ++ testPath),
           logError { w with files := w.files ++ [(trainPath, tr)] }
             ("Error saving data: " ++ ("write failed: " ++ testPath))))) := by
  refine ⟨?_, ?_, ?_, ?_⟩
  · intro env w e h
    simp [load_params, h]
  · intro env w e h
    simp [load_data, h]
  · intro f w e h
    simp [preprocess_data, h]
  · intro wr tr te w
    constructor
    · intro h1
      simp [save_data, writeCsv, h1]
    · intro h1 h2
      simp [save_data, writeCsv, h1, h2]

/-- C8 witness: each stage's re-raise behaviour at concrete failing inputs. -/
theorem c8_witness :
    load_params envAllFail emptyWorld =
      (Except.error "E1", logError emptyWorld ("Error loading parameters: " ++ "E1")) ∧
    load_data envAllFail emptyWorld =
      (Except.error "E2", logError emptyWorld ("Error loading data: " ++ "E2")) ∧
    preprocess_data frameNoU emptyWorld =
      (Except.error "KeyError: labels not found in axis",
       logError emptyWorld
         ("Error during preprocessing: " ++ "KeyError: labels not found in axis")) ∧
    save_data envAllFail.writeOk frameOne frameOne emptyWorld =
      (Except.error ("write failed: " ++ trainPath),
       logError emptyWorld ("Error saving data: " ++ ("write failed: " ++ trainPath))) :=
  ⟨c8_stages_reraise.1 envAllFail emptyWorld "E1" rfl,
   c8_stages_reraise.2.1 envAllFail emptyWorld "E2" rfl,
   c8_stages_reraise.2.2.1 frameNoU emptyWorld _ rfl,
   (c8_stages_reraise.2.2.2 envAllFail.writeOk frameOne frameOne emptyWorld).1 rfl⟩

/-- C9: on any dataset containing the three placeholder columns, the
preprocessor only drops those columns and renames the header: the output
columns are the surviving input columns renamed (so extra columns are kept),
row labels and row order are unchanged, and every output row's cells are a
subsequence of that input row's cells — no value is transformed. -/
theorem c9_preprocess_frame_effect (f : Frame) (w : World)
    (hU : ∀ c ∈ unnamedCols, c ∈ f.cols) :
    ∃ g, (preprocess_data f w).1 = Except.ok g ∧
      g.cols = (f.cols.filter (fun c => !(unnamedCols.contains c))).map renameMap ∧
      g.rows.map Prod.fst = f.rows.map Prod.fst ∧
      List.Forall₂ (fun r s => r.1 = s.1 ∧ r.2.Sublist s.2) g.rows f.rows ∧
      (∀ c ∈ f.cols, c ∉ unnamedCols → renameMap c ∈ g.cols) := by
  refine ⟨_, preprocess_ok hU w, rfl, by simp, ?_, ?_⟩
  · show List.Forall₂ _ (f.rows.map (fun r => (r.1, keepCells f.cols r.2))) f.rows
    have hF : ∀ l : List Row, List.Forall₂ (fun r s => r.1 = s.1 ∧ r.2.Sublist s.2)
        (l.map (fun r => (r.1, keepCells f.cols r.2))) l := by
      intro l
      induction l with
      | nil => exact List.Forall₂.nil
      | cons r t ih => exact List.Forall₂.cons ⟨rfl, keepCells_sublist f.cols r.2⟩ ih
    exact hF f.rows
  · intro c hc hnc
    show renameMap c ∈ (f.cols.filter (fun c => !(unnamedCols.contains c))).map renameMap
    exact List.mem_map.mpr
      ⟨c, List.mem_filter.mpr ⟨hc, by rw [contains_eq_false_of_not_mem hnc]; rfl⟩, rfl⟩

/-- C9 witness: the frame effect at the six-column dataset, whose extra
column survives into the output. -/
theorem c9_witness :
    ∃ g, (preprocess_data frameExtra emptyWorld).1 = Except.ok g ∧
      g.cols = (frameExtra.cols.filter (fun c => !(unnamedCols.contains c))).map renameMap ∧
      g.rows.map Prod.fst = frameExtra.rows.map Prod.fst ∧
      List.Forall₂ (fun r s => r.1 = s.1 ∧ r.2.Sublist s.2) g.rows frameExtra.rows ∧
      (∀ c ∈ frameExtra.cols, c ∉ unnamedCols → renameMap c ∈ g.cols) :=
  c9_preprocess_frame_effect frameExtra emptyWorld (by decide)

/-- C10: `save_data` writes `train.csv` before `test.csv`: with both writes
accepted the trace gains the pair in that order, and with only the test
write failing the error is re-raised while the already-written `train.csv`
stays — a failed run leaves exactly one of the two output files. -/
theorem c10_save_not_atomic (wr : String → Bool) (tr te : Frame) (w : World) :
    (wr trainPath = true → wr testPath = true →
      (save_data wr tr te w).2.files = w.files ++ [(trainPath, tr), (testPath, te)]) ∧
    (wr trainPath = true → wr testPath = false →
      (save_data wr tr te w).1 = Except.error ("write failed: " ++ testPath) ∧
      (save_data wr tr te w).2.files = w.files ++ [(trainPath, tr)]) := by
  constructor
  · intro h1 h2
    simp [save_data, writeCsv, h1, h2, logDebug]
  · intro h1 h2
    constructor
    · simp [save_data, writeCsv, h1, h2]
    · simp [save_data, writeCsv, h1, h2, logError]

/-- C10 witness: a filesystem accepting only the train write leaves exactly
`train.csv` behind and re-raises the test-write failure. -/
theorem c10_witness :
    (save_data writeTrainOnly frameOne frameOne emptyWorld).1 =
      Except.error ("write failed: " ++ testPath) ∧
    (save_data writeTrainOnly frameOne frameOne emptyWorld).2.files =
      emptyWorld.files ++ [(trainPath, frameOne)] :=
  (c10_save_not_atomic writeTrainOnly frameOne frameOne emptyWorld).2 (by decide) (by decide)

end DataIngestion
